import Mathlib

/-!
Verification of the authentication / session-token / abuse-protection core of
the TaskManagementAPI repository, shallowly embedded in Lean 4.

The embedding follows the Python source:
  * `app/utils/cache.py`    — `MockRedis` ephemeral key-value store with TTL,
                              `cache_data`, `get_cached_data`, `clear_cache`;
  * `app/utils/security.py` — password hashing, JWT access/refresh tokens,
                              login-attempt throttling, `get_current_user`;
  * `app/api/v1/endpoints/auth.py`          — `login`, `refresh_token`,
                              `request_password_reset`, `reset_password`;
  * `app/api/v1/endpoints/notifications.py` — `get_notifications`,
                              `mark_notification_read`.

Wall-clock time (Python `datetime.now().timestamp()`) is passed as an explicit
integer parameter `now`; every stateful operation takes and returns the store.
-/

set_option autoImplicit false

namespace TaskAPI

/-! ## Association-list maps (model of Python `dict`)

`MockRedis` in the source keeps two `dict`s, `_data` and `_expires`.  We model
each as a `List (String × β)` with unique-key semantics: `ainsert` replaces any
previous binding and `aerase` removes every binding of the key, so the model's
observable behavior agrees with a Python `dict` for every reachable store. -/

/-- Look up the value bound to `k` (Python `d.get(k)` / `d[k]`). -/
def alookup {β : Type} (d : List (String × β)) (k : String) : Option β :=
  (d.find? (fun kv => kv.1 == k)).map (·.2)

/-- Bind `k` to `v`, replacing any previous binding (Python `d[k] = v`). -/
def ainsert {β : Type} (d : List (String × β)) (k : String) (v : β) :
    List (String × β) :=
  (k, v) :: d.filter (fun kv => kv.1 != k)

/-- Remove every binding of `k` (Python `del d[k]`; total where Python would
raise `KeyError` on an absent key — callers in the source only delete keys
they have just found present). -/
def aerase {β : Type} (d : List (String × β)) (k : String) : List (String × β) :=
  d.filter (fun kv => kv.1 != k)

/-- Membership test (Python `k in d`). -/
def amem {β : Type} (d : List (String × β)) (k : String) : Bool :=
  d.any (fun kv => kv.1 == k)

/-- Parse a run of decimal digits into an accumulator; `none` on the first
non-digit. -/
def parseNatAux : List Char → Nat → Option Nat
  | [], acc => some acc
  | c :: cs, acc =>
    if c.isDigit then parseNatAux cs (acc * 10 + (c.toNat - ('0').toNat))
    else none

/-- Parse a non-empty all-digit character list as a natural number. -/
def parseNatChars : List Char → Option Nat
  | [] => none
  | c :: cs => parseNatAux (c :: cs) 0

/-- Parse an optionally `-`-signed decimal character list as an integer. -/
def parseIntChars : List Char → Option Int
  | [] => none
  | '-' :: cs => (parseNatChars cs).map (fun n => -(n : Int))
  | c :: cs => (parseNatChars (c :: cs)).map (fun n => (n : Int))

/-- Python `int(s)` on the numeric strings the store holds at counter keys
(`incr` only ever stores `str(n)`); `0` stands in for the `ValueError` raised
on a non-numeric string, a state no reachable store produces at those keys. -/
def pyInt (s : String) : Int :=
  (parseIntChars s.data).getD 0

/-! ## `MockRedis` (app/utils/cache.py, class MockRedis) -/

/-- The ephemeral store: `_data` maps keys to string values, `_expires` maps
keys to absolute expiry timestamps (seconds). -/
structure MockRedis where
  data : List (String × String)
  expires : List (String × Int)
deriving DecidableEq, Repr

namespace MockRedis

/-- Model of `MockRedis.get`: a key whose expiry timestamp is strictly in the past is
evicted from both maps and reported absent; otherwise the stored value (or
absence) is returned. -/
def get (r : MockRedis) (now : Int) (key : String) : Option String × MockRedis :=
  match alookup r.expires key with
  | some t =>
      if t < now then
        (none, ⟨aerase r.data key, aerase r.expires key⟩)
      else
        (alookup r.data key, r)
  | none => (alookup r.data key, r)

/-- Model of `MockRedis.expire`: set the expiry of an existing key to `now + time`;
returns `false` and leaves the store unchanged when the key is absent. -/
def expire (r : MockRedis) (now : Int) (key : String) (time : Int) :
    Bool × MockRedis :=
  if amem r.data key then
    (true, ⟨r.data, ainsert r.expires key (now + time)⟩)
  else
    (false, r)

/-- Model of `MockRedis.set` with optional expiry `ex` (Python truthiness: `None` and
`0` both skip the `expire` call). -/
def set (r : MockRedis) (now : Int) (key value : String) (ex : Option Int) :
    Bool × MockRedis :=
  let r1 : MockRedis := ⟨ainsert r.data key value, r.expires⟩
  match ex with
  | some e => if e ≠ 0 then (true, (r1.expire now key e).2) else (true, r1)
  | none => (true, r1)

/-- Model of `MockRedis.setex`: store the value, then set its expiry. -/
def setex (r : MockRedis) (now : Int) (key : String) (time : Int)
    (value : String) : Bool × MockRedis :=
  let r1 : MockRedis := ⟨ainsert r.data key value, r.expires⟩
  (true, (r1.expire now key time).2)

/-- Model of `MockRedis.delete`: remove the key from both maps, reporting whether it
was present in `_data`. -/
def delete (r : MockRedis) (key : String) : Bool × MockRedis :=
  if amem r.data key then
    (true, ⟨aerase r.data key, aerase r.expires key⟩)
  else
    (false, r)

/-- Model of `MockRedis.incr`: read the raw stored value (defaulting to `0` when the
key is absent), add one, store the decimal string back, and return the new
value.  Note that, unlike `get`, it consults neither `_expires` nor the clock. -/
def incr (r : MockRedis) (key : String) : Int × MockRedis :=
  let current := pyInt (((alookup r.data key).getD "0"))
  (current + 1, ⟨ainsert r.data key (toString (current + 1)), r.expires⟩)

/-- Model of `MockRedis.ttl`: `-2` when the key is absent from `_data`, `-1` when it has
no expiry, otherwise the remaining seconds clamped below by `1` (the source
comments that existing keys report at least one second). -/
def ttl (r : MockRedis) (now : Int) (key : String) : Int :=
  if amem r.data key then
    match alookup r.expires key with
    | some t => max 1 (t - now)
    | none => -1
  else
    -2

/-- Model of `MockRedis._clean_expired`: drop every key whose expiry timestamp is
strictly in the past from both maps. -/
def cleanExpired (r : MockRedis) (now : Int) : MockRedis :=
  let expiredKeys := (r.expires.filter (fun kv => kv.2 < now)).map (·.1)
  ⟨r.data.filter (fun kv => !(expiredKeys.contains kv.1)),
   r.expires.filter (fun kv => !(kv.2 < now))⟩

end MockRedis

/-- Model of `fnmatch.fnmatch` restricted to the glob features the repository's key
patterns use (`*`, `?` and literal characters; no bracket classes appear in
any pattern the code passes).  `fnmatch` compiles the pattern to a regex in
which `*` becomes `.*`, so `*` matches an arbitrary (possibly empty) span —
here rendered as matching the rest of the pattern against some suffix. -/
def globMatch : List Char → List Char → Bool
  | [], s => s.isEmpty
  | c :: ps, s =>
    if c = '*' then
      s.tails.any (fun suf => globMatch ps suf)
    else
      match s with
      | [] => false
      | c' :: ss => (c = '?' || c == c') && globMatch ps ss

namespace MockRedis

/-- Model of `MockRedis.keys`: evict expired entries, then list the keys matching the
glob pattern. -/
def keys (r : MockRedis) (now : Int) (pattern : String) :
    List String × MockRedis :=
  let r1 := r.cleanExpired now
  ((r1.data.map (·.1)).filter (fun k => globMatch pattern.data k.data), r1)

/-- Model of `MockRedis.flushall`: clear both maps. -/
def flushall (_r : MockRedis) : MockRedis := ⟨[], []⟩

end MockRedis

/-! ## Settings (app/core/config.py, class Settings) -/

def SECRET_KEY : String := "your-secret-key"
def ACCESS_TOKEN_EXPIRE_MINUTES : Int := 30
def REFRESH_TOKEN_EXPIRE_DAYS : Int := 7
def MAX_LOGIN_ATTEMPTS : Int := 5
def LOCKOUT_TIME : Int := 15
def CACHE_TTL : Int := 300

/-! ## JWT model (python-jose `jwt.encode` / `jwt.decode`)

A token is its claim set together with the key it was signed with; `decode`
succeeds exactly when the supplied key matches the signing key and the `exp`
claim is not in the past (python-jose raises `ExpiredSignatureError`, a
`JWTError`, when `exp < now`).  `refresh = false` stands for the `refresh`
claim being absent or `False` — Python code only ever tests its truthiness. -/

/-- The claim set carried by a token: `sub`, `exp` and the refresh marker. -/
structure TokenPayload where
  sub : Option String
  exp : Int
  refresh : Bool
deriving DecidableEq, Repr

/-- A signed token: claims plus the signing key. -/
structure JWT where
  payload : TokenPayload
  key : String
deriving DecidableEq, Repr

/-- Failure kinds of `jwt.decode` (both are `JWTError` subclasses in jose). -/
inductive JWTErr
  | invalidSignature
  | expiredSignature
deriving DecidableEq, Repr

/-- Model of `jwt.decode(token, key, algorithms=[...])` at clock value `now`. -/
def jwtDecode (t : JWT) (key : String) (now : Int) : Except JWTErr TokenPayload :=
  if t.key ≠ key then .error .invalidSignature
  else if t.payload.exp < now then .error .expiredSignature
  else .ok t.payload

/-- The `data` dict passed to the token constructors: at every call site it is
`{"sub": username}`, but we keep the general shape (a `sub` claim and a
possibly pre-set refresh marker) so the constructors copy it faithfully. -/
structure TokenData where
  sub : Option String
  refresh : Bool
deriving DecidableEq, Repr

/-- Model of `create_access_token` (app/utils/security.py): copy the data, set
`exp = now + expires_delta` (defaulting to `ACCESS_TOKEN_EXPIRE_MINUTES`
minutes), and sign with the service secret.  `expires_delta` is in seconds. -/
def create_access_token (data : TokenData) (expires_delta : Option Int)
    (now : Int) : JWT :=
  let expire := match expires_delta with
    | some d => now + d
    | none => now + ACCESS_TOKEN_EXPIRE_MINUTES * 60
  ⟨⟨data.sub, expire, data.refresh⟩, SECRET_KEY⟩

/-- Model of `create_refresh_token` (app/utils/security.py): copy the data, set
`exp = now + REFRESH_TOKEN_EXPIRE_DAYS` days and `refresh = True`, and sign
with the service secret. -/
def create_refresh_token (data : TokenData) (now : Int) : JWT :=
  ⟨⟨data.sub, now + REFRESH_TOKEN_EXPIRE_DAYS * 86400, true⟩, SECRET_KEY⟩

/-! ## Users and password hashing -/

/-- Model of `UserRole` (app/models/enums.py). -/
inductive UserRole
  | USER
  | ADMIN
deriving DecidableEq, Repr

/-- The fields of the `User` model (app/models/user.py) that the
authentication subsystem reads or writes. -/
structure User where
  id : Nat
  email : String
  username : String
  hashed_password : String
  is_active : Bool
  role : UserRole
  last_login : Option Int
deriving DecidableEq, Repr

/-- Stand-in for passlib's bcrypt `pwd_context.hash` (an external library, not
repository code): an injective tagging that preserves the one property the
call sites rely on, `verify_password p (get_password_hash p) = true`. -/
def get_password_hash (password : String) : String :=
  "bcrypt$" ++ password

/-- Stand-in for passlib's `pwd_context.verify` over the hash model above. -/
def verify_password (plain_password hashed_password : String) : Bool :=
  hashed_password == get_password_hash plain_password

/-! ## Login throttling (app/utils/security.py) -/

/-- The store key holding the failed-login counter of a principal. -/
def loginAttemptsKey (username : String) : String :=
  "login_attempts:" ++ username

/-- Model of `check_login_attempts`: read the counter through `get` (which evicts an
expired counter); the login is blocked exactly when a truthy value at least
`MAX_LOGIN_ATTEMPTS` is present. -/
def check_login_attempts (username : String) (r : MockRedis) (now : Int) :
    Bool × MockRedis :=
  match r.get now (loginAttemptsKey username) with
  | (some s, r1) =>
      if s ≠ "" ∧ MAX_LOGIN_ATTEMPTS ≤ pyInt s then (false, r1) else (true, r1)
  | (none, r1) => (true, r1)

/-- Model of `increment_login_attempts`: bump the counter and (re)set its TTL to
`LOCKOUT_TIME` minutes. -/
def increment_login_attempts (username : String) (r : MockRedis) (now : Int) :
    MockRedis :=
  let key := loginAttemptsKey username
  let r1 := (r.incr key).2
  ((r1.expire now key (LOCKOUT_TIME * 60))).2

/-- Model of `reset_login_attempts`: delete the counter. -/
def reset_login_attempts (username : String) (r : MockRedis) : MockRedis :=
  (r.delete (loginAttemptsKey username)).2

/-! ## Request-layer failures

One failure type covers every `HTTPException` the modelled endpoints raise;
distinct constructors correspond to distinct status/detail pairs in the
source, so equal constructors mean externally identical failures. -/

inductive ApiError
  | credentialsException      -- 401 "Не удалось проверить учетные данные" / "Could not validate credentials"
  | tooManyAttempts           -- 429 "Too many login attempts. Please try again later."
  | incorrectCredentials      -- 401 "Incorrect username or password"
  | inactiveUser              -- 400 "Inactive user"
  | invalidRefreshToken       -- 401 "Invalid refresh token"
  | userNotFound              -- 404/401 "User not found"
  | invalidOrExpiredToken     -- 400 "Invalid or expired token"
  | invalidTokenFormat        -- 400 "Invalid token format"
  | notificationNotFound      -- 404 "Notification not found"
  | notificationAlreadyRead   -- 400 "Notification already marked as read"
deriving DecidableEq, Repr

/-- Model of `get_current_user` (app/utils/security.py): decode the bearer token with
the service secret, extract the `sub` claim, and load the user by username;
every failure raises the same `credentials_exception`. -/
def get_current_user (token : JWT) (db : List User) (now : Int) :
    Except ApiError User :=
  match jwtDecode token SECRET_KEY now with
  | .error _ => .error .credentialsException
  | .ok payload =>
    match payload.sub with
    | none => .error .credentialsException
    | some username =>
      match db.find? (fun u => u.username == username) with
      | none => .error .credentialsException
      | some u => .ok u

/-! ## Auth endpoints (app/api/v1/endpoints/auth.py) -/

/-- The `login` endpoint (`POST /token`): throttle check, user lookup,
password verification (a miss increments the counter), activity check, then
counter reset, token issuance and `last_login` update.  Returns the failure
or token pair together with the updated user table and store. -/
def login (username password : String) (db : List User) (r : MockRedis)
    (now : Int) : Except ApiError (JWT × JWT) × List User × MockRedis :=
  let chk := check_login_attempts username r now
  if !chk.1 then
    (.error .tooManyAttempts, db, chk.2)
  else
    match db.find? (fun u => u.username == username) with
    | none =>
        (.error .incorrectCredentials, db,
         increment_login_attempts username chk.2 now)
    | some user =>
        if !verify_password password user.hashed_password then
          (.error .incorrectCredentials, db,
           increment_login_attempts username chk.2 now)
        else if !user.is_active then
          (.error .inactiveUser, db, chk.2)
        else
          let r2 := reset_login_attempts username chk.2
          let access := create_access_token ⟨some user.username, false⟩
            (some (ACCESS_TOKEN_EXPIRE_MINUTES * 60)) now
          let refresh := create_refresh_token ⟨some user.username, false⟩ now
          let db2 := db.map (fun u =>
            if u.username == username then { u with last_login := some now } else u)
          (.ok (access, refresh), db2, r2)

/-- The `refresh_token` endpoint (`POST /refresh-token`): decode the supplied
token, require a `sub` claim and a truthy `refresh` claim, load the user, and
issue a fresh access+refresh pair. -/
def refresh_token_endpoint (req : JWT) (db : List User) (now : Int) :
    Except ApiError (JWT × JWT) :=
  match jwtDecode req SECRET_KEY now with
  | .error _ => .error .credentialsException
  | .ok payload =>
    match payload.sub with
    | none => .error .credentialsException
    | some username =>
      if !payload.refresh then .error .invalidRefreshToken
      else
        match db.find? (fun u => u.username == username) with
        | none => .error .userNotFound
        | some user =>
            .ok (create_access_token ⟨some user.username, false⟩
                   (some (ACCESS_TOKEN_EXPIRE_MINUTES * 60)) now,
                 create_refresh_token ⟨some user.username, false⟩ now)

/-- Model of `json.dumps({"user_id": user.id})`: the one field the reset flow
stores, rendered as its decimal string. -/
def encodeUserId (uid : Nat) : String := toString uid

/-- Model of `json.loads(token_data)["user_id"]`; `none` is the
`JSONDecodeError` branch. -/
def decodeUserId (s : String) : Option Nat := parseNatChars s.data

/-- The store key under which a reset token is filed. -/
def resetTokenKey (tok : String) : String := "reset_token:" ++ tok

/-- The `request_password_reset` endpoint (`POST /password-reset`): look the
user up by email and file the freshly generated token (`uuid4`, modelled as
the input `tok`) under `reset_token:<tok>` for 3600 seconds. -/
def request_password_reset (email tok : String) (db : List User)
    (r : MockRedis) (now : Int) : Except ApiError Unit × MockRedis :=
  match db.find? (fun u => u.email == email) with
  | none => (.error .userNotFound, r)
  | some user =>
      (.ok (), (r.setex now (resetTokenKey tok) 3600 (encodeUserId user.id)).2)

/-- The `reset_password` endpoint (`POST /reset-password/{token}`): read the
token entry through `get` (absent ⇒ `invalidOrExpiredToken`), parse it, load
the user, replace the credential hash, commit, and delete the token entry. -/
def reset_password (tok new_password : String) (db : List User)
    (r : MockRedis) (now : Int) : Except ApiError (List User) × MockRedis :=
  match r.get now (resetTokenKey tok) with
  | (none, r1) => (.error .invalidOrExpiredToken, r1)
  | (some s, r1) =>
    match decodeUserId s with
    | none => (.error .invalidTokenFormat, r1)
    | some uid =>
      match db.find? (fun u => u.id == uid) with
      | none => (.error .userNotFound, r1)
      | some user =>
          let db2 := db.map (fun u =>
            if u.id == user.id then
              { u with hashed_password := get_password_hash new_password }
            else u)
          (.ok db2, (r1.delete (resetTokenKey tok)).2)

/-! ## Notifications and cache invalidation
(app/api/v1/endpoints/notifications.py, app/utils/cache.py) -/

/-- The fields of the `Notification` model that `get_notifications` /
`mark_notification_read` read or write. -/
structure Notification where
  id : Nat
  user_id : Nat
  is_read : Bool
  created_at : Int
deriving DecidableEq, Repr

/-- One notification rendered for the cache (a line of
`json.dumps([notification.model_dump(), ...])`). -/
def encodeNotif (n : Notification) : String :=
  toString n.id ++ "," ++ toString n.user_id ++ ","
    ++ (if n.is_read then "1" else "0") ++ "," ++ toString n.created_at

/-- Model of the JSON serialization `cache_data` stores for a notification
list. -/
def encodeNotifs (l : List Notification) : String :=
  String.intercalate ";" (l.map encodeNotif)

/-- Split a character list on a separator character. -/
def splitOnChar (sep : Char) : List Char → List (List Char)
  | [] => [[]]
  | c :: cs =>
    let r := splitOnChar sep cs
    if c = sep then [] :: r
    else
      match r with
      | [] => [[c]]
      | g :: gs => (c :: g) :: gs

/-- Inverse parse of `encodeNotif`; `none` models a JSON parse failure, which
`get_cached_data` converts into a cache miss. -/
def decodeNotif (cs : List Char) : Option Notification :=
  match splitOnChar ',' cs with
  | [a, b, c, d] =>
    match parseNatChars a, parseNatChars b, parseIntChars d with
    | some i, some u, some t => some ⟨i, u, c = ['1'], t⟩
    | _, _, _ => none
  | _ => none

/-- Inverse parse of `encodeNotifs`. -/
def decodeNotifs (s : String) : Option (List Notification) :=
  (splitOnChar ';' s.data).mapM decodeNotif

/-- Model of `get_cached_data` specialised to notification lists: read the key through
`get`; an absent key, an empty string (falsy in Python) or a parse failure
all yield `none`. -/
def get_cached_notifications (key : String) (r : MockRedis) (now : Int) :
    Option (List Notification) × MockRedis :=
  match r.get now key with
  | (some s, r1) => (if s ≠ "" then decodeNotifs s else none, r1)
  | (none, r1) => (none, r1)

/-- Model of `clear_cache` (app/utils/cache.py): with a truthy pattern, delete every
key matching it (via `keys`, which first evicts expired entries); with a
falsy one, flush the store. -/
def clear_cache (key_pattern : String) (r : MockRedis) (now : Int) : MockRedis :=
  if key_pattern ≠ "" then
    let ks := r.keys now key_pattern
    ks.1.foldl (fun acc k => (acc.delete k).2) ks.2
  else
    r.flushall

/-- The cache key for a user's notification list. -/
def userNotificationsKey (uid : Nat) : String :=
  "user_notifications:" ++ toString uid

/-- The source-of-truth read: the user's notifications, newest first
(`order_by(Notification.created_at.desc())`). -/
def notificationsFor (uid : Nat) (db : List Notification) : List Notification :=
  List.insertionSort (fun a b => b.created_at ≤ a.created_at)
    (db.filter (fun n => n.user_id == uid))

/-- The `get_notifications` endpoint (`GET /notifications`): return the cached
snapshot when present and truthy (a cached empty list is falsy in Python and
recomputed), otherwise read the source of truth, cache it for `CACHE_TTL`
seconds, and return it. -/
def get_notifications (current_user : User) (db : List Notification)
    (r : MockRedis) (now : Int) : List Notification × MockRedis :=
  let cache_key := userNotificationsKey current_user.id
  let cached := get_cached_notifications cache_key r now
  match cached with
  | (some l, r1) =>
      if l ≠ [] then (l, r1)
      else
        let result := notificationsFor current_user.id db
        (result, (r1.setex now cache_key CACHE_TTL (encodeNotifs result)).2)
  | (none, r1) =>
      let result := notificationsFor current_user.id db
      (result, (r1.setex now cache_key CACHE_TTL (encodeNotifs result)).2)

/-- The `mark_notification_read` endpoint
(`POST /notifications/{id}/read`): find the caller's notification, reject a
missing or already-read one, set `is_read`, commit, and clear the caller's
notification cache. -/
def mark_notification_read (notification_id : Nat) (current_user : User)
    (db : List Notification) (r : MockRedis) (now : Int) :
    Except ApiError Unit × List Notification × MockRedis :=
  match db.find? (fun n => n.id == notification_id && n.user_id == current_user.id) with
  | none => (.error .notificationNotFound, db, r)
  | some n =>
    if n.is_read then (.error .notificationAlreadyRead, db, r)
    else
      let db2 := db.map (fun m =>
        if m.id == notification_id && m.user_id == current_user.id then
          { m with is_read := true }
        else m)
      let r2 := clear_cache (userNotificationsKey current_user.id) r now
      (.ok (), db2, r2)

/-! ## Spec-side definitions for refinement comparison

These two definitions follow the words of the specification, not the source;
they exist only to be compared against `MockRedis.incr` and `MockRedis.ttl`. -/

/-- Whether the key's TTL has lapsed at `now` (the spec's "a stored entry is
treated as absent" once its TTL elapses). -/
def ttlLapsed (r : MockRedis) (now : Int) (key : String) : Bool :=
  match alookup r.expires key with
  | some t => decide (t < now)
  | none => false

/-- Whether the key counts as absent under the spec's reading: missing from
the store, or present with a lapsed TTL. -/
def specAbsent (r : MockRedis) (now : Int) (key : String) : Bool :=
  (alookup r.data key).isNone || ttlLapsed r now key

/-- The increment behavior the spec claims: create at 0 if absent (a lapsed
key counting as absent), then increment by one and return the new value. -/
def incrClaimed (r : MockRedis) (now : Int) (key : String) : Int :=
  if specAbsent r now key then 1
  else pyInt ((alookup r.data key).getD "0") + 1

/-- The ttl behavior the spec claims: seconds remaining when the key exists
with a TTL, `-1` when it exists without one, `-2` when absent (a lapsed key
counting as absent). -/
def ttlClaimed (r : MockRedis) (now : Int) (key : String) : Int :=
  if specAbsent r now key then -2
  else
    match alookup r.expires key with
    | some t => t - now
    | none => -1

/-! ## Concrete fixtures used by the witnesses -/

/-- A registered, active principal. -/
def aliceUser : User :=
  ⟨1, "alice@example.com", "alice", get_password_hash "Sw0rd!x", true, .USER, none⟩

/-- A registered but deactivated principal. -/
def bobInactive : User :=
  ⟨2, "bob@example.com", "bob", get_password_hash "B0bPass!", false, .USER, none⟩

/-- The sample user table. -/
def sampleDb : List User := [aliceUser, bobInactive]

/-- A store in which alice's failed-login counter sits at the lockout
threshold, expiring at time 50. -/
def lockedStore : MockRedis :=
  ⟨[(loginAttemptsKey "alice", "5")], [(loginAttemptsKey "alice", 50)]⟩

/-- A store entry whose TTL (timestamp 0) has lapsed by time 10. -/
def staleStore : MockRedis := ⟨[("k", "3")], [("k", 0)]⟩

/-- An unread notification owned by alice. -/
def sampleNotification : Notification := ⟨1, 1, false, 100⟩

/-! ## Association-list and store lemmas -/

theorem alookup_ainsert_self {β : Type} (d : List (String × β)) (k : String) (v : β) :
    alookup (ainsert d k v) k = some v := by
  simp [alookup, ainsert, List.find?]

theorem alookup_filter_none {β : Type} {d : List (String × β)} {k : String}
    (p : String × β → Bool) (h : alookup d k = none) :
    alookup (d.filter p) k = none := by
  unfold alookup at h ⊢
  rw [Option.map_eq_none'] at h ⊢
  rw [List.find?_eq_none] at h ⊢
  intro x hx
  exact h x (List.mem_filter.mp hx).1

theorem alookup_aerase_self {β : Type} (d : List (String × β)) (k : String) :
    alookup (aerase d k) k = none := by
  unfold alookup aerase
  rw [Option.map_eq_none', List.find?_eq_none]
  intro x hx
  have hm := (List.mem_filter.mp hx).2
  simpa using hm

theorem alookup_none_of_amem_false {β : Type} {d : List (String × β)} {k : String}
    (h : amem d k = false) : alookup d k = none := by
  unfold alookup
  rw [Option.map_eq_none', List.find?_eq_none]
  intro x hx hxk
  have hany : d.any (fun kv => kv.1 == k) = true := List.any_eq_true.mpr ⟨x, hx, hxk⟩
  unfold amem at h
  rw [h] at hany
  cases hany

theorem alookup_delete_data_none (r : MockRedis) (k : String) :
    alookup ((r.delete k).2).data k = none := by
  unfold MockRedis.delete
  split
  · exact alookup_aerase_self _ _
  · next h => exact alookup_none_of_amem_false (by simpa using h)

theorem alookup_delete_data_none_of_none (r : MockRedis) (k k' : String)
    (h : alookup r.data k = none) : alookup ((r.delete k').2).data k = none := by
  unfold MockRedis.delete
  split
  · exact alookup_filter_none _ h
  · exact h

theorem get_fst_none (r : MockRedis) (now : Int) (k : String)
    (h : alookup r.data k = none) : (r.get now k).1 = none := by
  cases he : alookup r.expires k with
  | none => simp [MockRedis.get, he, h]
  | some t =>
    by_cases ht : t < now
    · simp [MockRedis.get, he, ht]
    · simp [MockRedis.get, he, ht, h]

theorem check_fst_true_of_absent (username : String) (r : MockRedis) (now : Int)
    (h : alookup r.data (loginAttemptsKey username) = none) :
    (check_login_attempts username r now).1 = true := by
  have h1 := get_fst_none r now (loginAttemptsKey username) h
  unfold check_login_attempts
  rcases hg : MockRedis.get r now (loginAttemptsKey username) with ⟨o, r1⟩
  rw [hg] at h1
  simp only at h1
  subst h1
  rfl

theorem foldl_delete_alookup_none (ks : List String) (r : MockRedis) (k : String)
    (h : k ∈ ks ∨ alookup r.data k = none) :
    alookup ((ks.foldl (fun acc kk => (acc.delete kk).2) r).data) k = none := by
  induction ks generalizing r with
  | nil =>
    rcases h with h | h
    · cases h
    · simpa using h
  | cons kk ks ih =>
    rw [List.foldl_cons]
    by_cases hk : k = kk
    · subst hk
      exact ih _ (Or.inr (alookup_delete_data_none r k))
    · rcases h with h | h
      · rcases List.mem_cons.mp h with h1 | h1
        · exact absurd h1 hk
        · exact ih _ (Or.inl h1)
      · exact ih _ (Or.inr (alookup_delete_data_none_of_none r k kk h))

theorem globMatch_self (p : List Char) : globMatch p p = true := by
  induction p with
  | nil => rfl
  | cons c cs ih =>
    by_cases hc : c = '*'
    · subst hc
      rw [globMatch, if_pos rfl]
      apply List.any_eq_true.mpr
      exact ⟨cs, (List.mem_tails _ _).mpr (List.suffix_cons '*' cs), ih⟩
    · rw [globMatch, if_neg hc]
      simp [ih]

theorem clear_cache_alookup_self_none (k : String) (r : MockRedis) (now : Int)
    (hk : k ≠ "") :
    alookup (clear_cache k r now).data k = none := by
  unfold clear_cache
  rw [if_pos hk]
  apply foldl_delete_alookup_none
  cases hl : alookup (r.cleanExpired now).data k with
  | none => exact Or.inr (by unfold MockRedis.keys; exact hl)
  | some v =>
    left
    have hfind : ∃ e, (r.cleanExpired now).data.find? (fun kv => kv.1 == k) = some e := by
      unfold alookup at hl
      cases hf : (r.cleanExpired now).data.find? (fun kv => kv.1 == k) with
      | none => rw [hf] at hl; cases hl
      | some e => exact ⟨e, rfl⟩
    obtain ⟨e, he⟩ := hfind
    have hmem := List.mem_of_find?_eq_some he
    have heq : e.1 = k := by simpa using List.find?_some he
    unfold MockRedis.keys
    apply List.mem_filter.mpr
    refine ⟨List.mem_map.mpr ⟨e, hmem, heq⟩, globMatch_self _⟩

/-! ## Claim theorems -/

/-- C4: for every subject and issue time, verifying a freshly issued,
unexpired access token (signed with the service secret) through
`get_current_user` yields back exactly the user whose username is that
subject identifier. -/
theorem access_token_round_trip
    (username : String) (delta now now' : Int) (db : List User) (u : User)
    (hvalid : now' ≤ now + delta)
    (hfind : db.find? (fun x => x.username == username) = some u) :
    get_current_user (create_access_token ⟨some username, false⟩ (some delta) now)
        db now' = .ok u
      ∧ u.username = username := by
  constructor
  · have hexp : ¬ (now + delta < now') := not_lt.mpr hvalid
    simp [get_current_user, jwtDecode, create_access_token, hexp, hfind]
  · have := List.find?_some hfind
    simpa using this

/-- Witness for C4: the round trip at subject "alice", issued at time 0 and
verified at time 10 with a 1800-second lifetime. -/
theorem access_token_round_trip_witness :
    get_current_user (create_access_token ⟨some "alice", false⟩ (some 1800) 0)
        sampleDb 10 = .ok aliceUser
      ∧ aliceUser.username = "alice" :=
  access_token_round_trip "alice" 1800 0 10 sampleDb aliceUser
    (by decide) (by decide)

/-- C5: a token whose `exp` claim lies in the past at verification time is
rejected by `get_current_user` with the uniform credentials failure,
regardless of whether its signature (signing key) is valid. -/
theorem expired_token_rejected
    (tok : JWT) (db : List User) (now : Int)
    (h : tok.payload.exp < now) :
    get_current_user tok db now = .error .credentialsException := by
  rcases eq_or_ne tok.key SECRET_KEY with hk | hk
  · simp [get_current_user, jwtDecode, hk, h]
  · simp [get_current_user, jwtDecode, hk]

/-- Witness for C5: an expired token with a valid signature and an expired
token with an invalid signature are both rejected at time 5. -/
theorem expired_token_rejected_witness :
    get_current_user ⟨⟨some "alice", 0, false⟩, SECRET_KEY⟩ sampleDb 5
        = .error .credentialsException
      ∧ get_current_user ⟨⟨some "alice", 0, false⟩, "forged-key"⟩ sampleDb 5
        = .error .credentialsException :=
  ⟨expired_token_rejected ⟨⟨some "alice", 0, false⟩, SECRET_KEY⟩ sampleDb 5 (by decide),
   expired_token_rejected ⟨⟨some "alice", 0, false⟩, "forged-key"⟩ sampleDb 5 (by decide)⟩

/-- Counterexample to C1 as stated: a valid, unexpired refresh token (its
`refresh` claim is `true`) IS accepted by access-token verification —
`get_current_user` never inspects the refresh flag. -/
theorem refresh_token_accepted_by_access_verification :
    (create_refresh_token ⟨some "alice", false⟩ 0).payload.refresh = true
      ∧ get_current_user (create_refresh_token ⟨some "alice", false⟩ 0)
          sampleDb 10 = .ok aliceUser := by
  constructor <;> rfl

/-- C1 amended: the token kinds are separated in one direction only.  An
access token (refresh flag absent) is always rejected by the refresh
operation with the wrong-kind failure, but a refresh token is accepted by
access-token verification, which ignores the refresh flag. -/
theorem token_kind_separation_amended :
    (∀ (data : TokenData) (delta now now' : Int) (db : List User) (s : String),
        data.sub = some s → data.refresh = false → now' ≤ now + delta →
        refresh_token_endpoint (create_access_token data (some delta) now) db now'
          = .error .invalidRefreshToken)
    ∧ (∀ (username : String) (now now' : Int) (db : List User) (u : User),
        now' ≤ now + REFRESH_TOKEN_EXPIRE_DAYS * 86400 →
        db.find? (fun x => x.username == username) = some u →
        get_current_user (create_refresh_token ⟨some username, false⟩ now) db now'
          = .ok u) := by
  constructor
  · intro data delta now now' db s hsub href hvalid
    have hexp : ¬ (now + delta < now') := not_lt.mpr hvalid
    simp [refresh_token_endpoint, jwtDecode, create_access_token, hexp, hsub, href]
  · intro username now now' db u hvalid hfind
    have hexp : ¬ (now + REFRESH_TOKEN_EXPIRE_DAYS * 86400 < now') := not_lt.mpr hvalid
    simp [get_current_user, jwtDecode, create_refresh_token, hexp, hfind]

/-- Witness for the amended C1: at concrete inputs, the access token is
refused by the refresh endpoint and the refresh token is accepted by
`get_current_user`. -/
theorem token_kind_separation_amended_witness :
    refresh_token_endpoint (create_access_token ⟨some "alice", false⟩ (some 1800) 0)
        sampleDb 10 = .error .invalidRefreshToken
      ∧ get_current_user (create_refresh_token ⟨some "alice", false⟩ 0) sampleDb 10
        = .ok aliceUser :=
  ⟨token_kind_separation_amended.1 ⟨some "alice", false⟩ 1800 0 10 sampleDb "alice"
      rfl rfl (by decide),
   token_kind_separation_amended.2 "alice" 0 10 sampleDb aliceUser
      (by decide) (by decide)⟩

/-- C2: while the failed-login counter holds a value at least
`MAX_LOGIN_ATTEMPTS` and its TTL has not lapsed, `login` fails with the
rate-limit error before any credential work, for any supplied password, and
leaves the table and store untouched; once the TTL has lapsed with no
further attempts, a correct login succeeds and the counter is absent
afterwards. -/
theorem lockout_blocks_then_expires
    (username pwAny pwGood : String) (db : List User) (u : User) (r : MockRedis)
    (now1 now2 : Int) (s : String) (t : Int)
    (hdata : alookup r.data (loginAttemptsKey username) = some s)
    (hcount : MAX_LOGIN_ATTEMPTS ≤ pyInt s)
    (hexp : alookup r.expires (loginAttemptsKey username) = some t)
    (hlive : ¬ t < now1) (hlapsed : t < now2)
    (hfind : db.find? (fun x => x.username == username) = some u)
    (hpw : verify_password pwGood u.hashed_password = true)
    (hactive : u.is_active = true) :
    login username pwAny db r now1 = (.error .tooManyAttempts, db, r)
    ∧ (login username pwGood db r now2).1
        = .ok (create_access_token ⟨some u.username, false⟩
                 (some (ACCESS_TOKEN_EXPIRE_MINUTES * 60)) now2,
               create_refresh_token ⟨some u.username, false⟩ now2)
    ∧ alookup (login username pwGood db r now2).2.2.data
        (loginAttemptsKey username) = none := by
  have hs : s ≠ "" := by
    intro h0
    subst h0
    exact absurd hcount (by decide)
  have hchk1 : check_login_attempts username r now1 = (false, r) := by
    simp [check_login_attempts, MockRedis.get, hexp, hlive, hdata, hs, hcount]
  have hchk2 : check_login_attempts username r now2
      = (true, ⟨aerase r.data (loginAttemptsKey username),
                aerase r.expires (loginAttemptsKey username)⟩) := by
    simp [check_login_attempts, MockRedis.get, hexp, hlapsed]
  have hL : login username pwGood db r now2
      = (.ok (create_access_token ⟨some u.username, false⟩
                (some (ACCESS_TOKEN_EXPIRE_MINUTES * 60)) now2,
              create_refresh_token ⟨some u.username, false⟩ now2),
         db.map (fun x =>
           if x.username == username then { x with last_login := some now2 } else x),
         (MockRedis.delete
           ⟨aerase r.data (loginAttemptsKey username),
            aerase r.expires (loginAttemptsKey username)⟩
           (loginAttemptsKey username)).2) := by
    simp [login, hchk2, hfind, hpw, hactive, reset_login_attempts]
  refine ⟨?_, ?_, ?_⟩
  · simp [login, hchk1]
  · rw [hL]
  · rw [hL]
    exact alookup_delete_data_none _ _

/-- Witness for C2: alice's counter sits at 5 with TTL expiring at time 50;
at time 40 a login with the wrong password is rate-limited without touching
the store, at time 100 a correct login succeeds and the counter is gone. -/
theorem lockout_blocks_then_expires_witness :
    login "alice" "wrong" sampleDb lockedStore 40
        = (.error .tooManyAttempts, sampleDb, lockedStore)
    ∧ (login "alice" "Sw0rd!x" sampleDb lockedStore 100).1
        = .ok (create_access_token ⟨some aliceUser.username, false⟩
                 (some (ACCESS_TOKEN_EXPIRE_MINUTES * 60)) 100,
               create_refresh_token ⟨some aliceUser.username, false⟩ 100)
    ∧ alookup (login "alice" "Sw0rd!x" sampleDb lockedStore 100).2.2.data
        (loginAttemptsKey "alice") = none :=
  lockout_blocks_then_expires "alice" "wrong" "Sw0rd!x" sampleDb aliceUser
    lockedStore 40 100 "5" 50 rfl (by decide) rfl (by decide)
    (by decide) rfl rfl rfl

/-- C6: a successful login deletes the principal's failed-login counter
whatever its value was, so the throttle check passes immediately afterwards
at every clock value. -/
theorem successful_login_resets_counter
    (username password : String) (db : List User) (u : User) (r : MockRedis)
    (now : Int)
    (hchk : (check_login_attempts username r now).1 = true)
    (hfind : db.find? (fun x => x.username == username) = some u)
    (hpw : verify_password password u.hashed_password = true)
    (hactive : u.is_active = true) :
    (login username password db r now).1
      = .ok (create_access_token ⟨some u.username, false⟩
               (some (ACCESS_TOKEN_EXPIRE_MINUTES * 60)) now,
             create_refresh_token ⟨some u.username, false⟩ now)
    ∧ alookup (login username password db r now).2.2.data
        (loginAttemptsKey username) = none
    ∧ ∀ now' : Int,
        (check_login_attempts username (login username password db r now).2.2 now').1
          = true := by
  rcases hc : check_login_attempts username r now with ⟨b, r1⟩
  rw [hc] at hchk
  simp only at hchk
  subst hchk
  have hL : login username password db r now
      = (.ok (create_access_token ⟨some u.username, false⟩
                (some (ACCESS_TOKEN_EXPIRE_MINUTES * 60)) now,
              create_refresh_token ⟨some u.username, false⟩ now),
         db.map (fun x =>
           if x.username == username then { x with last_login := some now } else x),
         (MockRedis.delete r1 (loginAttemptsKey username)).2) := by
    simp [login, hc, hfind, hpw, hactive, reset_login_attempts]
  have habs : alookup (login username password db r now).2.2.data
      (loginAttemptsKey username) = none := by
    rw [hL]
    exact alookup_delete_data_none _ _
  exact ⟨by rw [hL], habs,
    fun now' => check_fst_true_of_absent username _ now' habs⟩

/-- Witness for C6: a correct login on an empty store succeeds and the
throttle check passes right after (sampled at clock value 7). -/
theorem successful_login_resets_counter_witness :
    (login "alice" "Sw0rd!x" sampleDb ⟨[], []⟩ 0).1
      = .ok (create_access_token ⟨some aliceUser.username, false⟩
               (some (ACCESS_TOKEN_EXPIRE_MINUTES * 60)) 0,
             create_refresh_token ⟨some aliceUser.username, false⟩ 0)
    ∧ alookup (login "alice" "Sw0rd!x" sampleDb ⟨[], []⟩ 0).2.2.data
        (loginAttemptsKey "alice") = none
    ∧ (check_login_attempts "alice"
        (login "alice" "Sw0rd!x" sampleDb ⟨[], []⟩ 0).2.2 7).1 = true :=
  ⟨(successful_login_resets_counter "alice" "Sw0rd!x" sampleDb aliceUser
      ⟨[], []⟩ 0 rfl rfl rfl rfl).1,
   (successful_login_resets_counter "alice" "Sw0rd!x" sampleDb aliceUser
      ⟨[], []⟩ 0 rfl rfl rfl rfl).2.1,
   (successful_login_resets_counter "alice" "Sw0rd!x" sampleDb aliceUser
      ⟨[], []⟩ 0 rfl rfl rfl rfl).2.2 7⟩

/-- The throttle check leaves the store untouched when the counter's TTL has
not lapsed. -/
theorem check_snd_eq_of_live (username : String) (r : MockRedis) (now : Int)
    (hnoevict : ∀ t : Int,
      alookup r.expires (loginAttemptsKey username) = some t → ¬ t < now) :
    (check_login_attempts username r now).2 = r := by
  have hget : MockRedis.get r now (loginAttemptsKey username)
      = (alookup r.data (loginAttemptsKey username), r) := by
    unfold MockRedis.get
    cases he : alookup r.expires (loginAttemptsKey username) with
    | none => rfl
    | some t => simp [hnoevict t he]
  unfold check_login_attempts
  rw [hget]
  cases hd : alookup r.data (loginAttemptsKey username) with
  | none => rfl
  | some s =>
    simp only
    split <;> rfl

/-- C10: a login attempt by an existing but inactive principal with the
correct secret fails with the inactive-account error and leaves the store —
in particular the failed-login counter — exactly as it was: neither
incremented nor deleted. -/
theorem inactive_login_preserves_counter
    (username password : String) (db : List User) (u : User) (r : MockRedis)
    (now : Int)
    (hfind : db.find? (fun x => x.username == username) = some u)
    (hpw : verify_password password u.hashed_password = true)
    (hinactive : u.is_active = false)
    (hchk : (check_login_attempts username r now).1 = true)
    (hnoevict : ∀ t : Int,
      alookup r.expires (loginAttemptsKey username) = some t → ¬ t < now) :
    login username password db r now = (.error .inactiveUser, db, r) := by
  have hsnd := check_snd_eq_of_live username r now hnoevict
  rcases hc : check_login_attempts username r now with ⟨b, r1⟩
  rw [hc] at hchk hsnd
  simp only at hchk hsnd
  subst hchk
  subst hsnd
  simp [login, hc, hfind, hpw, hinactive]

/-- Witness for C10: bob is inactive; a login with his correct password on a
store already holding a warned counter for bob fails with the inactive error
and returns that store unchanged. -/
theorem inactive_login_preserves_counter_witness :
    login "bob" "B0bPass!" sampleDb
        ⟨[(loginAttemptsKey "bob", "2")], [(loginAttemptsKey "bob", 50)]⟩ 40
      = (.error .inactiveUser, sampleDb,
         ⟨[(loginAttemptsKey "bob", "2")], [(loginAttemptsKey "bob", 50)]⟩) :=
  inactive_login_preserves_counter "bob" "B0bPass!" sampleDb bobInactive
    ⟨[(loginAttemptsKey "bob", "2")], [(loginAttemptsKey "bob", 50)]⟩ 40
    rfl rfl rfl rfl
    (by intro t ht; simp [alookup, loginAttemptsKey] at ht; omega)

/-- Any redemption attempt whose store lookup comes back absent fails with
the uniform invalid-or-expired error. -/
theorem reset_password_fst_absent (tok pw : String) (db : List User)
    (r : MockRedis) (now : Int)
    (h : (MockRedis.get r now (resetTokenKey tok)).1 = none) :
    (reset_password tok pw db r now).1 = .error .invalidOrExpiredToken := by
  unfold reset_password
  rcases hg : MockRedis.get r now (resetTokenKey tok) with ⟨o, r1⟩
  rw [hg] at h
  simp only at h
  subst h
  rfl

/-- C3: redeeming a reset token succeeds at most once.  First, any token the
store reports absent — never issued, already expired, or already redeemed —
fails with the same `invalidOrExpiredToken` error; second, a token whose TTL
has lapsed fails that same way; third, after one successful redemption (which
deleted the token), a second redemption of the same token fails with that
same error. -/
theorem reset_token_single_use :
    (∀ (tok pw : String) (db : List User) (r : MockRedis) (now : Int),
        (MockRedis.get r now (resetTokenKey tok)).1 = none →
        (reset_password tok pw db r now).1 = .error .invalidOrExpiredToken)
    ∧ (∀ (tok pw : String) (db : List User) (r : MockRedis) (now t : Int),
        alookup r.expires (resetTokenKey tok) = some t → t < now →
        (reset_password tok pw db r now).1 = .error .invalidOrExpiredToken)
    ∧ (∀ (tok pw pw2 : String) (db db2 : List User) (r r2 : MockRedis)
          (now now2 : Int),
        reset_password tok pw db r now = (.ok db2, r2) →
        (reset_password tok pw2 db2 r2 now2).1 = .error .invalidOrExpiredToken) := by
  refine ⟨reset_password_fst_absent, ?_, ?_⟩
  · intro tok pw db r now t he ht
    apply reset_password_fst_absent
    simp [MockRedis.get, he, ht]
  · intro tok pw pw2 db db2 r r2 now now2 h
    unfold reset_password at h
    split at h
    · simp at h
    · split at h
      · simp at h
      · split at h
        · simp at h
        · simp only [Prod.mk.injEq, Except.ok.injEq] at h
          apply reset_password_fst_absent
          apply get_fst_none
          rw [← h.2]
          exact alookup_delete_data_none _ _

/-- Witness for C3: a never-issued token fails; a token whose TTL stamp 0 has
lapsed by time 10 fails; and after alice redeems her token successfully, a
second redemption of the same token fails the same way. -/
theorem reset_token_single_use_witness :
    (reset_password "nope" "NewPass1!" sampleDb ⟨[], []⟩ 0).1
        = .error .invalidOrExpiredToken
    ∧ (reset_password "tokX" "NewPass1!" sampleDb
          ⟨[(resetTokenKey "tokX", "1")], [(resetTokenKey "tokX", 0)]⟩ 10).1
        = .error .invalidOrExpiredToken
    ∧ (reset_password "tok123" "AnotherPass2!"
          [{ aliceUser with hashed_password := get_password_hash "NewPass1!" },
           bobInactive]
          ⟨[], []⟩ 9).1
        = .error .invalidOrExpiredToken :=
  ⟨reset_token_single_use.1 "nope" "NewPass1!" sampleDb ⟨[], []⟩ 0 rfl,
   reset_token_single_use.2.1 "tokX" "NewPass1!" sampleDb
     ⟨[(resetTokenKey "tokX", "1")], [(resetTokenKey "tokX", 0)]⟩ 10 0
     rfl (by decide),
   reset_token_single_use.2.2 "tok123" "NewPass1!" "AnotherPass2!" sampleDb
     [{ aliceUser with hashed_password := get_password_hash "NewPass1!" },
      bobInactive]
     ⟨[(resetTokenKey "tok123", "1")], [(resetTokenKey "tok123", 3600)]⟩
     ⟨[], []⟩ 5 9 rfl⟩

/-- Counterexample to C7 as stated: on a store where key "k" holds "3" with
an expiry stamp (0) that has lapsed by time 10, `incr` returns 4 — it counts
on from the stale value — while the claimed behavior (a lapsed key counts as
absent, so create at 0 then increment) would return 1. -/
theorem incr_ignores_ttl_counterexample :
    (MockRedis.incr staleStore "k").1 = 4
    ∧ incrClaimed staleStore 10 "k" = 1
    ∧ (MockRedis.incr staleStore "k").1 ≠ incrClaimed staleStore 10 "k" :=
  ⟨rfl, rfl, by decide⟩

/-- C7 amended: `incr` creates at 0 and increments by one, returning the new
value, but determines presence from the raw underlying map alone: it ignores
the TTL map entirely (a lapsed key still counts from its stale stored value)
and neither clears nor sets any TTL. -/
theorem incr_amended (r : MockRedis) (key : String) :
    (MockRedis.incr r key).1 = pyInt ((alookup r.data key).getD "0") + 1
    ∧ alookup (MockRedis.incr r key).2.data key
        = some (toString (pyInt ((alookup r.data key).getD "0") + 1))
    ∧ (MockRedis.incr r key).2.expires = r.expires
    ∧ (alookup r.data key = none → (MockRedis.incr r key).1 = 1) := by
  refine ⟨rfl, alookup_ainsert_self _ _ _, rfl, ?_⟩
  intro h
  have h1 : (MockRedis.incr r key).1 = pyInt ((alookup r.data key).getD "0") + 1 := rfl
  rw [h1, h]
  decide

/-- Witness for the amended C7: on an empty store `incr` returns 1. -/
theorem incr_amended_witness : (MockRedis.incr ⟨[], []⟩ "k").1 = 1 :=
  (incr_amended ⟨[], []⟩ "k").2.2.2 rfl

/-- Counterexample to C8 as stated: on a store where key "k" is present but
its expiry stamp (0) has lapsed by time 10, `ttl` returns 1 — the clamp
`max(1, remaining)` — while the claimed behavior (a lapsed key counts as
absent) would return -2. -/
theorem ttl_lapsed_counterexample :
    MockRedis.ttl staleStore 10 "k" = 1
    ∧ ttlClaimed staleStore 10 "k" = -2
    ∧ MockRedis.ttl staleStore 10 "k" ≠ ttlClaimed staleStore 10 "k" :=
  ⟨rfl, rfl, by decide⟩

/-- C8 amended: `ttl` returns -2 only when the key is absent from the raw
underlying map, -1 when it is present without an expiry, and otherwise
`max 1 (expiry - now)` — so a key whose TTL has already lapsed (but which no
eviction has removed yet) reports 1, not -2. -/
theorem ttl_amended (r : MockRedis) (now : Int) (key : String) :
    (amem r.data key = false → MockRedis.ttl r now key = -2)
    ∧ (amem r.data key = true → alookup r.expires key = none →
        MockRedis.ttl r now key = -1)
    ∧ (∀ t : Int, amem r.data key = true → alookup r.expires key = some t →
        MockRedis.ttl r now key = max 1 (t - now))
    ∧ (∀ t : Int, amem r.data key = true → alookup r.expires key = some t →
        t < now → MockRedis.ttl r now key = 1) := by
  refine ⟨?_, ?_, ?_, ?_⟩
  · intro h
    simp [MockRedis.ttl, h]
  · intro h he
    simp [MockRedis.ttl, h, he]
  · intro t h he
    simp [MockRedis.ttl, h, he]
  · intro t h he ht
    have hmax : max 1 (t - now) = 1 := max_eq_left (by omega)
    simp [MockRedis.ttl, h, he, hmax]

/-- Witness for the amended C8: an absent key reports -2, a key without
expiry reports -1, and the stale key of the counterexample store reports 1. -/
theorem ttl_amended_witness :
    MockRedis.ttl ⟨[], []⟩ 0 "k" = -2
    ∧ MockRedis.ttl ⟨[("k", "3")], []⟩ 0 "k" = -1
    ∧ MockRedis.ttl staleStore 10 "k" = 1 :=
  ⟨(ttl_amended ⟨[], []⟩ 0 "k").1 rfl,
   (ttl_amended ⟨[("k", "3")], []⟩ 0 "k").2.1 rfl rfl,
   (ttl_amended staleStore 10 "k").2.2.2 0 rfl rfl (by decide)⟩

/-- C9: after a read (which may have populated the owner's notification
cache), a successful mark-as-read deletes the owner's cache entry, so the
next read recomputes from the source of truth and reflects the mutation: it
returns exactly the fresh database view, in which the marked notification is
read. -/
theorem cache_invalidation_round_trip
    (u : User) (db db2 : List Notification) (r r2 : MockRedis)
    (now1 now2 now3 : Int) (nid : Nat)
    (hmark : mark_notification_read nid u db (get_notifications u db r now1).2 now2
              = (.ok (), db2, r2)) :
    (get_notifications u db2 r2 now3).1 = notificationsFor u.id db2
    ∧ ∀ n ∈ (get_notifications u db2 r2 now3).1,
        n.id = nid → n.user_id = u.id → n.is_read = true := by
  unfold mark_notification_read at hmark
  split at hmark
  · simp at hmark
  · split at hmark
    · simp at hmark
    · simp only [Prod.mk.injEq] at hmark
      obtain ⟨-, hdb2, hr2⟩ := hmark
      have hkne : userNotificationsKey u.id ≠ "" := by
        intro hcon
        have hlen := congrArg String.length hcon
        unfold userNotificationsKey at hlen
        rw [String.length_append] at hlen
        have h1 : ("user_notifications:").length = 19 := rfl
        have h2 : ("").length = 0 := rfl
        omega
      have hnone : alookup r2.data (userNotificationsKey u.id) = none := by
        rw [← hr2]
        exact clear_cache_alookup_self_none _ _ _ hkne
      have hget := get_fst_none r2 now3 (userNotificationsKey u.id) hnone
      have hmain : (get_notifications u db2 r2 now3).1 = notificationsFor u.id db2 := by
        unfold get_notifications get_cached_notifications
        dsimp only
        rcases hg : MockRedis.get r2 now3 (userNotificationsKey u.id) with ⟨o, rr⟩
        rw [hg] at hget
        simp only at hget
        subst hget
        rfl
      refine ⟨hmain, ?_⟩
      intro n hn hid huid
      rw [hmain] at hn
      unfold notificationsFor at hn
      rw [List.mem_insertionSort] at hn
      have hn2 : n ∈ db2 := (List.mem_filter.mp hn).1
      rw [← hdb2] at hn2
      obtain ⟨m, hm, hfm⟩ := List.mem_map.mp hn2
      by_cases hcond : (m.id == nid && m.user_id == u.id) = true
      · rw [if_pos hcond] at hfm
        rw [← hfm]
      · rw [if_neg hcond] at hfm
        exfalso
        apply hcond
        rw [hfm]
        simp [hid, huid]

/-- Witness for C9: alice reads her single unread notification (populating
the cache), marks it read (which clears the cache), and the next read
returns the fresh view in which it is read. -/
theorem cache_invalidation_round_trip_witness :
    (get_notifications aliceUser [⟨1, 1, true, 100⟩] ⟨[], []⟩ 2).1
        = notificationsFor aliceUser.id [⟨1, 1, true, 100⟩]
    ∧ ∀ n ∈ (get_notifications aliceUser [⟨1, 1, true, 100⟩] ⟨[], []⟩ 2).1,
        n.id = 1 → n.user_id = aliceUser.id → n.is_read = true :=
  cache_invalidation_round_trip aliceUser [sampleNotification]
    [⟨1, 1, true, 100⟩] ⟨[], []⟩ ⟨[], []⟩ 0 1 2 1 rfl

end TaskAPI
